import Mathlib

/-!
Verification of the crypto momentum trading engine
(`trading_client.py` and `backtesting.py`).

The embedding is shallow: money and price quantities are modelled as `ℚ`,
the gateway (exchange) is abstracted as an environment record whose queries
the per-tick cycle reads, and the observable behaviour of a recalibration
cycle is the list of gateway actions it emits together with an optional
Python-level error (division by zero, `position_error`, `TypeError`) cutting
the cycle short at the point where it is raised.
-/

namespace Crypto

/-- Order side, the `'buy'` / `'sell'` strings of the source. -/
inductive Side where
  | buy
  | sell
deriving DecidableEq, Repr

/-- The position dict returned by `search_current_position` /
kept in `CryptoMomentumStrategy.current_position`: fields `side`, `size`,
`entryPrice` (`backtesting.py` `update_position`).  A `None`/empty dict is
modelled as `Option.none` at use sites. -/
structure CurrentPosition where
  side : Side
  size : ℚ
  entryPrice : ℚ
deriving DecidableEq, Repr

/-- A gateway call emitted by `recalibrate_position`:
`exchange.create_order(_, 'market', side, amount)`,
`exchange.create_order(_, 'stop', side, amount, params)` and
`exchange.cancel_all_orders(_)`. -/
inductive Action where
  | marketOrder (side : Side) (amount : ℚ)
  | stopOrder (side : Side) (amount : ℚ) (triggerPrice : ℚ) (reduceOnly : Bool)
  | cancelAllOrders
deriving DecidableEq, Repr

/-- A Python runtime error that aborts the cycle. -/
inductive PyError where
  | zeroDivision
deriving DecidableEq, Repr

/-- What the gateway reports to one recalibration cycle:
`stop_was_triggered()`, `search_current_position()` and
`fetch_account_balance()` results.  Read-only during the cycle. -/
structure GatewayEnv where
  stopTriggeredToday : Bool
  currentPosition : Option CurrentPosition
  accountBalance : ℚ
deriving Repr

/-- `WAIT_IF_STOP_LOSS = True` (trading_client.py line 35). -/
def WAIT_IF_STOP_LOSS : Bool := true

/-- `EQUITY_AMOUNT = 0.75` (line 21). -/
def EQUITY_AMOUNT : ℚ := 3 / 4

/-- `ACCOUNT_LEVERAGE = 5` (line 23). -/
def ACCOUNT_LEVERAGE : ℚ := 5

/-- `RISK_MULTIPLIER = 0.10` (line 25). -/
def RISK_MULTIPLIER : ℚ := 1 / 10

/-- `max_amount = (EQUITY_AMOUNT * ACCOUNT_LEVERAGE * account_balance) / price`
(line 126). -/
def max_amount (balance price : ℚ) : ℚ :=
  EQUITY_AMOUNT * ACCOUNT_LEVERAGE * balance / price

/-- `risk_adjusted_amount = (account_balance * RISK_MULTIPLIER) / (atr * 2)`
(line 127). -/
def risk_adjusted_amount (balance atr : ℚ) : ℚ :=
  balance * RISK_MULTIPLIER / (atr * 2)

/-- `new_amount = risk_adjusted_amount if risk_adjusted_amount <= max_amount
else max_amount` (line 128). -/
def new_amount (balance price atr : ℚ) : ℚ :=
  if risk_adjusted_amount balance atr ≤ max_amount balance price then
    risk_adjusted_amount balance atr
  else
    max_amount balance price

/-- Lines 109–119 of `recalibrate_position`: given an existing position,
the market order closing it (if any) and the resulting value of the
`should_reposition` flag. -/
def close_step (cur : CurrentPosition) (ma ema : ℚ) : List Action × Bool :=
  if cur.side = Side.buy ∧ ma > ema then
    ([Action.marketOrder Side.sell cur.size], true)
  else if cur.side = Side.sell ∧ ema > ma then
    ([Action.marketOrder Side.buy cur.size], true)
  else
    ([], false)

/-- Lines 133–142: the entry market order plus reduce-only stop order
submitted for the new position (nothing is submitted when `ma = ema`). -/
def entry_orders (ma ema atr price amt : ℚ) : List Action :=
  if ma > ema then
    [Action.marketOrder Side.sell amt,
     Action.stopOrder Side.buy amt (price + atr * 2) true]
  else if ema > ma then
    [Action.marketOrder Side.buy amt,
     Action.stopOrder Side.sell amt (price - atr * 2) true]
  else
    []

/-- `recalibrate_position(ma, ema, atr, price)` (trading_client.py
lines 101–142), with the gateway queries abstracted by `env`.  The result is
the list of gateway actions emitted, in order, paired with the Python error
aborting the cycle (if any): Python raises `ZeroDivisionError` at line 126
when `price = 0` and at line 127 when `atr = 0`, after the closing order and
`cancel_all_orders` have already gone out. -/
def recalibrate_position (env : GatewayEnv) (ma ema atr price : ℚ) :
    List Action × Option PyError :=
  if WAIT_IF_STOP_LOSS && env.stopTriggeredToday then
    ([], none)
  else
    let cs : List Action × Bool :=
      match env.currentPosition with
      | none => ([], false)
      | some cur => close_step cur ma ema
    if env.currentPosition = none ∨ cs.2 = true then
      let acts := cs.1 ++ [Action.cancelAllOrders]
      let balance := env.accountBalance
      if price = 0 then (acts, some PyError.zeroDivision)
      else if atr = 0 then (acts, some PyError.zeroDivision)
      else (acts ++ entry_orders ma ema atr price (new_amount balance price atr), none)
    else
      (cs.1, none)

/-- An action that submits an order (market or stop), as opposed to the
cancellation of pending orders. -/
def isOrderSubmission : Action → Bool
  | Action.marketOrder _ _ => true
  | Action.stopOrder _ _ _ _ => true
  | Action.cancelAllOrders => false

/-!
The backtest harness (`backtesting.py`): `CryptoMomentumStrategy` keeps the
pyalgotrade position objects for the long and the short slot in `self.long`
and `self.short`, and mutates them in `simulate_market_order` and the
`onEnterOk` / `onEnterCanceled` / `onExitOk` / `onExitCanceled` callbacks.
A pyalgotrade position object is modelled by `BtPosition`; fresh objects get
fresh ids, so Python object comparison is equality of `BtPosition`.
-/

/-- A pyalgotrade `strategy.position.Position` object as the harness sees it:
identity, direction and share count. -/
structure BtPosition where
  pid : ℕ
  isLong : Bool
  shares : ℚ
deriving DecidableEq, Repr

/-- The mutable position-related state of `CryptoMomentumStrategy`:
`self.long`, `self.short`, `self.bar` (abstracted to whether a bar has been
seen), `self.was_long`, plus a counter supplying fresh position ids. -/
structure BtState where
  long : Option BtPosition
  short : Option BtPosition
  barSeen : Bool
  wasLong : Option Bool
  nextId : ℕ
deriving DecidableEq, Repr

/-- `__init__`: `self.long = None`, `self.short = None`, `self.bar = None`,
`self.was_long = None`. -/
def initBtState : BtState :=
  { long := none, short := none, barSeen := false, wasLong := none, nextId := 0 }

/-- An observable side effect of a harness callback: a call
`position.exitMarket()` (submitting a market exit order for that whole
position), or an `self.info(...)` log line. -/
inductive Emit where
  | exitMarket (p : BtPosition)
  | infoLog
deriving DecidableEq, Repr

/-- A Python exception raised by a harness callback:
`position_error()` (`raise Exception('position must be short or long')`) or
the `TypeError` from subscripting `params=None` in `simulate_market_order`. -/
inductive BtErr where
  | positionError
  | typeError
deriving DecidableEq, Repr

/-- `onEnterOk` (lines 35–43): log which side was entered; raise
`position_error` if the confirmed position is neither slot. -/
def onEnterOk (s : BtState) (p : BtPosition) : BtState × List Emit × Option BtErr :=
  if s.long = some p then (s, [Emit.infoLog], none)
  else if s.short = some p then (s, [Emit.infoLog], none)
  else (s, [], some BtErr.positionError)

/-- `onEnterCanceled` (lines 45–52): clear the slot holding the canceled
entry; raise `position_error` if it is neither slot. -/
def onEnterCanceled (s : BtState) (p : BtPosition) : BtState × List Emit × Option BtErr :=
  if s.long = some p then ({ s with long := none }, [], none)
  else if s.short = some p then ({ s with short := none }, [], none)
  else (s, [], some BtErr.positionError)

/-- `onExitOk` (lines 54–65): raise `position_error` when `self.was_long` is
still `None`, otherwise log the realized direction. -/
def onExitOk (s : BtState) : BtState × List Emit × Option BtErr :=
  match s.wasLong with
  | none => (s, [], some BtErr.positionError)
  | some _ => (s, [Emit.infoLog], none)

/-- `onExitCanceled` (lines 67–69): resubmit the exit by calling
`position.exitMarket()` on the very same position object; no state change,
no error.  (Per the spec's collaborator contract, `exitMarket` submits a
market exit order for the position's full size on its own side.) -/
def onExitCanceled (s : BtState) (p : BtPosition) : BtState × List Emit × Option BtErr :=
  (s, [Emit.exitMarket p], none)

/-- `simulate_market_order` (lines 107–130), the `side_effect` of the mocked
`create_order`: a no-op before any bar; exit and clear an occupied long (or
else short) slot; otherwise enter on the requested side — where entering
subscripts `params['triggerPrice']`, raising `TypeError` when the call
carried no `params` (`trigger = none`). -/
def simulate_market_order (s : BtState) (side : Side) (amount : ℚ)
    (trigger : Option ℚ) : BtState × List Emit × Option BtErr :=
  if s.barSeen = false then (s, [], none)
  else
    match s.long with
    | some p => ({ s with wasLong := some true, long := none }, [Emit.exitMarket p], none)
    | none =>
      match s.short with
      | some p => ({ s with wasLong := some false, short := none }, [Emit.exitMarket p], none)
      | none =>
        match trigger with
        | none => (s, [], some BtErr.typeError)
        | some _ =>
          match side with
          | Side.buy =>
            ({ s with long := some ⟨s.nextId, true, amount⟩, nextId := s.nextId + 1 },
             [], none)
          | Side.sell =>
            ({ s with short := some ⟨s.nextId, false, amount⟩, nextId := s.nextId + 1 },
             [], none)

/-- An event delivered to the harness: a new bar arriving (`onBars` sets
`self.bar`), a mocked `create_order` call, or a pyalgotrade order callback. -/
inductive BtEvent where
  | newBar
  | orderCall (side : Side) (amount : ℚ) (trigger : Option ℚ)
  | enterOk (p : BtPosition)
  | enterCanceled (p : BtPosition)
  | exitOk
  | exitCanceled (p : BtPosition)
deriving DecidableEq, Repr

/-- Dispatch one event to the corresponding harness method. -/
def btStep (s : BtState) : BtEvent → BtState × List Emit × Option BtErr
  | BtEvent.newBar => ({ s with barSeen := true }, [], none)
  | BtEvent.orderCall side amount trigger => simulate_market_order s side amount trigger
  | BtEvent.enterOk p => onEnterOk s p
  | BtEvent.enterCanceled p => onEnterCanceled s p
  | BtEvent.exitOk => onExitOk s
  | BtEvent.exitCanceled p => onExitCanceled s p

/-- Run a sequence of events from a state; an exception propagates out of the
backtest, so the run halts at the first error. -/
def btRun (s : BtState) : List BtEvent → BtState
  | [] => s
  | e :: es =>
    let r := btStep s e
    match r.2.2 with
    | some _ => r.1
    | none => btRun r.1 es

/-- Line 86 of `onBars`:
`trigger_mock.return_value = not (bool(self.current_position) or
self.bar_count == self.longest_look)`. -/
def trigger_mock_value (currentPosition : Option CurrentPosition)
    (bar_count longest_look : ℕ) : Bool :=
  !(currentPosition.isSome || bar_count == longest_look)

/-- The reversal condition for a long position as claim C4 states it:
bias flip `ma > ema` OR adverse excursion
`entryPrice - markPrice ≥ atr * stopMultiplier`, with the stop multiplier 2.
Written from the claim's words, to be compared with the code's `close_step`. -/
def spec_long_reversal_condition (ma ema entryPrice markPrice atr : ℚ) : Prop :=
  ma > ema ∨ entryPrice - markPrice ≥ atr * 2

instance (ma ema entryPrice markPrice atr : ℚ) :
    Decidable (spec_long_reversal_condition ma ema entryPrice markPrice atr) := by
  unfold spec_long_reversal_condition
  infer_instance

/-! ### Helper lemmas -/

lemma new_amount_eq_min (balance price atr : ℚ) :
    new_amount balance price atr
      = min (max_amount balance price) (risk_adjusted_amount balance atr) := by
  unfold new_amount
  rcases le_or_lt (risk_adjusted_amount balance atr) (max_amount balance price) with h | h
  · rw [if_pos h, min_eq_right h]
  · rw [if_neg (not_le.mpr h), min_eq_left h.le]

lemma close_step_buy_pos {cur : CurrentPosition} {ma ema : ℚ}
    (hside : cur.side = Side.buy) (h : ma > ema) :
    close_step cur ma ema = ([Action.marketOrder Side.sell cur.size], true) := by
  unfold close_step
  rw [if_pos ⟨hside, h⟩]

lemma close_step_buy_neg {cur : CurrentPosition} {ma ema : ℚ}
    (hside : cur.side = Side.buy) (h : ¬ ma > ema) :
    close_step cur ma ema = ([], false) := by
  unfold close_step
  rw [if_neg (by simp [h]), if_neg (by simp [hside])]

lemma close_step_sell_pos {cur : CurrentPosition} {ma ema : ℚ}
    (hside : cur.side = Side.sell) (h : ema > ma) :
    close_step cur ma ema = ([Action.marketOrder Side.buy cur.size], true) := by
  unfold close_step
  rw [if_neg (by simp [hside]), if_pos ⟨hside, h⟩]

lemma close_step_sell_neg {cur : CurrentPosition} {ma ema : ℚ}
    (hside : cur.side = Side.sell) (h : ¬ ema > ma) :
    close_step cur ma ema = ([], false) := by
  unfold close_step
  rw [if_neg (by simp [hside]), if_neg (by simp [h])]

lemma close_step_tie (cur : CurrentPosition) (ma : ℚ) :
    close_step cur ma ma = ([], false) := by
  cases hside : cur.side
  · exact close_step_buy_neg hside (lt_irrefl ma)
  · exact close_step_sell_neg hside (lt_irrefl ma)

lemma entry_orders_tie (ma atr price amt : ℚ) :
    entry_orders ma ma atr price amt = [] := by
  unfold entry_orders
  rw [if_neg (lt_irrefl ma), if_neg (lt_irrefl ma)]

lemma recalibrate_flat (env : GatewayEnv) (ma ema atr price : ℚ)
    (h1 : env.stopTriggeredToday = false) (h2 : env.currentPosition = none) :
    recalibrate_position env ma ema atr price =
      if price = 0 then ([Action.cancelAllOrders], some PyError.zeroDivision)
      else if atr = 0 then ([Action.cancelAllOrders], some PyError.zeroDivision)
      else ([Action.cancelAllOrders] ++
              entry_orders ma ema atr price (new_amount env.accountBalance price atr),
            none) := by
  unfold recalibrate_position
  simp [WAIT_IF_STOP_LOSS, h1, h2]

lemma recalibrate_some (env : GatewayEnv) (cur : CurrentPosition)
    (ma ema atr price : ℚ) (h1 : env.stopTriggeredToday = false)
    (h2 : env.currentPosition = some cur) :
    recalibrate_position env ma ema atr price =
      if (close_step cur ma ema).2 = true then
        (if price = 0 then
          ((close_step cur ma ema).1 ++ [Action.cancelAllOrders],
           some PyError.zeroDivision)
        else if atr = 0 then
          ((close_step cur ma ema).1 ++ [Action.cancelAllOrders],
           some PyError.zeroDivision)
        else
          ((close_step cur ma ema).1 ++ [Action.cancelAllOrders] ++
             entry_orders ma ema atr price (new_amount env.accountBalance price atr),
           none))
      else ((close_step cur ma ema).1, none) := by
  unfold recalibrate_position
  simp only [WAIT_IF_STOP_LOSS, h1, Bool.and_false, Bool.false_eq_true,
    if_false, h2]
  by_cases hrev : (close_step cur ma ema).2 = true
  · rw [if_pos (Or.inr hrev), if_pos hrev]
  · rw [if_neg ?_, if_neg hrev]
    intro hor
    rcases hor with hor | hor
    · exact Option.noConfusion hor
    · exact hrev hor

/-! ### Claims about the sizing computation (C2) -/

/-- C2: for every balance, price, atr (risk parameters fixed in the source),
the size computed when repositioning is the minimum of the equity cap
`EQUITY_AMOUNT * ACCOUNT_LEVERAGE * balance / price` and the risk cap
`balance * RISK_MULTIPLIER / (atr * 2)`; in particular it never exceeds the
equity cap. -/
theorem new_amount_is_min_of_caps (balance price atr : ℚ) :
    new_amount balance price atr
      = min (max_amount balance price) (risk_adjusted_amount balance atr) ∧
    new_amount balance price atr ≤ max_amount balance price := by
  refine ⟨new_amount_eq_min balance price atr, ?_⟩
  rw [new_amount_eq_min]
  exact min_le_left _ _

/-! ### Claims about the per-tick cycle (C5, C7) -/

/-- C5: with the stop-loss cooldown enabled (the source hardcodes
`WAIT_IF_STOP_LOSS = True`) and the gateway reporting a stop triggered
earlier the same trading day, the recalibration cycle emits no gateway
action at all — no submission, no cancellation — and raises no error, so the
position is untouched. -/
theorem cooldown_skips_cycle (env : GatewayEnv) (ma ema atr price : ℚ)
    (h : env.stopTriggeredToday = true) :
    recalibrate_position env ma ema atr price = ([], none) := by
  unfold recalibrate_position
  simp [WAIT_IF_STOP_LOSS, h]

theorem cooldown_skips_cycle_witness :
    (⟨true, none, 100⟩ : GatewayEnv).stopTriggeredToday = true ∧
    recalibrate_position ⟨true, none, 100⟩ 1 2 3 4 = ([], none) :=
  ⟨rfl, cooldown_skips_cycle ⟨true, none, 100⟩ 1 2 3 4 rfl⟩

/-- C7: on a tick with `ma = ema` the cycle submits no order whatsoever —
no market entry, no closing market order (so an existing position is held),
and no stop order. -/
theorem tie_submits_no_orders (env : GatewayEnv) (ma ema atr price : ℚ)
    (h : ma = ema) :
    ((recalibrate_position env ma ema atr price).1.filter isOrderSubmission)
      = [] := by
  subst h
  unfold recalibrate_position
  by_cases hs : env.stopTriggeredToday
  · simp [WAIT_IF_STOP_LOSS, hs]
  · cases hcur : env.currentPosition with
    | some cur =>
      simp [WAIT_IF_STOP_LOSS, hs, hcur, close_step_tie]
    | none =>
      simp only [WAIT_IF_STOP_LOSS, hs, Bool.and_false, Bool.false_eq_true,
        if_false, hcur, entry_orders_tie]
      split_ifs <;> simp [isOrderSubmission, entry_orders_tie]

theorem tie_submits_no_orders_witness :
    ((recalibrate_position ⟨false, none, 100⟩ 7 7 1 10).1.filter
        isOrderSubmission) = [] :=
  tie_submits_no_orders ⟨false, none, 100⟩ 7 7 1 10 rfl

/-- C9: on a tick that passes the cooldown check, whenever the book is flat
or a reversal was decided, `cancel_all_orders` is emitted; and in the flat,
`ma = ema` case the cycle's entire output is that single cancellation — all
pending stop orders are cancelled although nothing replaces them. -/
theorem flat_or_reversal_cancels_pending (env : GatewayEnv)
    (ma ema atr price : ℚ) (h1 : env.stopTriggeredToday = false)
    (h2 : env.currentPosition = none ∨
      ∃ cur, env.currentPosition = some cur ∧ (close_step cur ma ema).2 = true) :
    Action.cancelAllOrders ∈ (recalibrate_position env ma ema atr price).1 ∧
    (env.currentPosition = none → ma = ema →
      (recalibrate_position env ma ema atr price).1 = [Action.cancelAllOrders]) := by
  constructor
  · rcases h2 with hflat | ⟨cur, hcur, hrev⟩
    · rw [recalibrate_flat env ma ema atr price h1 hflat]
      split_ifs <;> simp
    · rw [recalibrate_some env cur ma ema atr price h1 hcur, if_pos hrev]
      split_ifs <;> simp
  · intro hflat hma
    subst hma
    rw [recalibrate_flat env ma ma atr price h1 hflat]
    split_ifs <;> simp [entry_orders_tie]

theorem flat_or_reversal_cancels_pending_witness :
    Action.cancelAllOrders ∈
      (recalibrate_position ⟨false, none, 100⟩ 7 7 1 10).1 ∧
    (recalibrate_position ⟨false, none, 100⟩ 7 7 1 10).1
      = [Action.cancelAllOrders] :=
  ⟨(flat_or_reversal_cancels_pending ⟨false, none, 100⟩ 7 7 1 10 rfl
      (Or.inl rfl)).1,
   (flat_or_reversal_cancels_pending ⟨false, none, 100⟩ 7 7 1 10 rfl
      (Or.inl rfl)).2 rfl rfl⟩

/-- C10: within `onBars` (which only reaches the mock wiring once
`longest_look ≤ bar_count`), the mocked `stop_was_triggered` returns `true`
exactly when no current position is recorded and the bar count is strictly
past the warm-up length; consequently every such bar makes
`recalibrate_position` skip entirely, as if a stop had been triggered that
day. -/
theorem backtest_cooldown_mock (pos : Option CurrentPosition) (n L : ℕ)
    (bal ma ema atr price : ℚ) (hn : L ≤ n) :
    (trigger_mock_value pos n L = true ↔ (pos = none ∧ L < n)) ∧
    (pos = none → L < n →
      recalibrate_position ⟨trigger_mock_value pos n L, pos, bal⟩ ma ema atr price
        = ([], none)) := by
  constructor
  · unfold trigger_mock_value
    cases pos with
    | none =>
      simp only [Option.isSome_none, Bool.false_or, Bool.not_eq_eq_eq_not,
        Bool.not_true, beq_eq_false_iff_ne, ne_eq, true_and]
      constructor
      · intro h
        exact lt_of_le_of_ne hn (fun hEq => h hEq.symm)
      · intro h hEq
        omega
    | some cur => simp
  · intro hpos hl
    subst hpos
    have ht : trigger_mock_value none n L = true := by
      unfold trigger_mock_value
      simp only [Option.isSome_none, Bool.false_or, Bool.not_eq_eq_eq_not,
        Bool.not_true, beq_eq_false_iff_ne, ne_eq]
      omega
    unfold recalibrate_position
    simp [WAIT_IF_STOP_LOSS, ht]

theorem backtest_cooldown_mock_witness :
    (trigger_mock_value none 5 4 = true
      ↔ ((none : Option CurrentPosition) = none ∧ 4 < 5)) ∧
    recalibrate_position ⟨trigger_mock_value none 5 4, none, 100⟩ 1 2 3 4
      = ([], none) :=
  ⟨(backtest_cooldown_mock none 5 4 100 1 2 3 4 (by decide)).1,
   (backtest_cooldown_mock none 5 4 100 1 2 3 4 (by decide)).2 rfl (by decide)⟩

/-! ### C3: no sizing validation exists in the code -/

/-- C3 counterexample: `atr = -1 ≤ 0` passed into the cycle with a flat book
and `ma > ema`; far from failing with a `SizingError` and submitting
nothing, the code submits a market entry order and a stop order (sized from
the negative risk cap) and finishes without error. -/
theorem negative_atr_still_submits_orders :
    ((-1 : ℚ) ≤ 0) ∧
    recalibrate_position ⟨false, none, 100⟩ 2 1 (-1) 1
      = ([Action.cancelAllOrders, Action.marketOrder Side.sell (-5),
          Action.stopOrder Side.buy (-5) (-1) true], none) := by
  constructor
  · norm_num
  · rw [recalibrate_flat ⟨false, none, 100⟩ 2 1 (-1) 1 rfl rfl]
    norm_num [entry_orders, new_amount, risk_adjusted_amount, max_amount,
      EQUITY_AMOUNT, ACCOUNT_LEVERAGE, RISK_MULTIPLIER]

/-- C3 amended: the code performs no atr/price validation and defines no
`SizingError`; with `atr < 0` or `price < 0` orders are submitted as usual,
and only `atr = 0` or `price = 0` aborts the cycle — with a
`ZeroDivisionError` raised during sizing, after the pending orders have
already been cancelled (on a flat book the cycle's output is exactly the
cancel-all followed by the error, with no order submitted). -/
theorem zero_atr_or_price_aborts_after_cancel (env : GatewayEnv)
    (ma ema atr price : ℚ) (h1 : env.stopTriggeredToday = false)
    (h2 : env.currentPosition = none) (h3 : atr = 0 ∨ price = 0) :
    recalibrate_position env ma ema atr price
      = ([Action.cancelAllOrders], some PyError.zeroDivision) := by
  rw [recalibrate_flat env ma ema atr price h1 h2]
  rcases h3 with h3 | h3
  · subst h3
    by_cases hp : price = 0
    · rw [if_pos hp]
    · rw [if_neg hp, if_pos rfl]
  · subst h3
    rw [if_pos rfl]

theorem zero_atr_or_price_aborts_after_cancel_witness :
    recalibrate_position ⟨false, none, 100⟩ 2 1 0 1
      = ([Action.cancelAllOrders], some PyError.zeroDivision) :=
  zero_atr_or_price_aborts_after_cancel ⟨false, none, 100⟩ 2 1 0 1 rfl rfl
    (Or.inl rfl)

/-! ### C4: reversal is decided by the bias flip alone -/

/-- C4 counterexample: an existing long with `entryPrice = 110` marked at
`markPrice = price = 100` and `atr = 2`, on a tick with `ma = ema = 100`.
The claim's condition holds (the adverse excursion `110 - 100 = 10` is at
least `atr * 2 = 4`), yet the cycle emits nothing at all: the position is
not reversed. -/
theorem long_reversal_ignores_adverse_excursion :
    spec_long_reversal_condition 100 100 110 100 2 ∧
    recalibrate_position ⟨false, some ⟨Side.buy, 1, 110⟩, 100⟩ 100 100 2 100
      = ([], none) := by
  constructor
  · exact Or.inr (by norm_num)
  · rw [recalibrate_some ⟨false, some ⟨Side.buy, 1, 110⟩, 100⟩
        ⟨Side.buy, 1, 110⟩ 100 100 2 100 rfl rfl]
    simp [close_step_tie]

/-- C4 amended: on a recalibration tick passing the cooldown check with a
position present, a long position is reversed (a closing market sell of its
full size leads the emitted actions) exactly when `ma > ema`, and a short
position is reversed exactly when `ema > ma`; the adverse excursion is not
consulted at recalibration time (stop protection is delegated to the resting
stop order at the exchange). -/
theorem reversal_iff_bias_flip (env : GatewayEnv) (cur : CurrentPosition)
    (ma ema atr price : ℚ) (h1 : env.stopTriggeredToday = false)
    (h2 : env.currentPosition = some cur) :
    (cur.side = Side.buy →
      ((recalibrate_position env ma ema atr price).1.head?
        = some (Action.marketOrder Side.sell cur.size) ↔ ma > ema)) ∧
    (cur.side = Side.sell →
      ((recalibrate_position env ma ema atr price).1.head?
        = some (Action.marketOrder Side.buy cur.size) ↔ ema > ma)) := by
  rw [recalibrate_some env cur ma ema atr price h1 h2]
  constructor
  · intro hside
    by_cases hma : ma > ema
    · rw [close_step_buy_pos hside hma]
      simp only [hma, iff_true]
      split_ifs <;> simp
    · rw [close_step_buy_neg hside hma]
      simp [hma]
  · intro hside
    by_cases hema : ema > ma
    · rw [close_step_sell_pos hside hema]
      simp only [hema, iff_true]
      split_ifs <;> simp
    · rw [close_step_sell_neg hside hema]
      simp [hema]

theorem reversal_iff_bias_flip_witness :
    (recalibrate_position ⟨false, some ⟨Side.buy, 2, 50⟩, 100⟩ 3 1 1 10).1.head?
      = some (Action.marketOrder Side.sell 2) :=
  ((reversal_iff_bias_flip ⟨false, some ⟨Side.buy, 2, 50⟩, 100⟩
      ⟨Side.buy, 2, 50⟩ 3 1 1 10 rfl rfl).1 rfl).mpr (by norm_num)

/-! ### C6: sizing is only weakly decreasing in atr -/

/-- C6 counterexample: with `balance = 100` and `price = 1` the equity cap
(375) binds at both `atr = 1/1000` and `atr = 1/500` (risk caps 5000 and
2500), so the sized amount is the same at both volatilities even though the
atr strictly increased. -/
theorem sizing_not_strictly_decreasing_in_atr :
    ((1 : ℚ) / 1000 < 1 / 500) ∧ (0 < (1 : ℚ) / 1000) ∧
    new_amount 100 1 (1 / 500) = new_amount 100 1 (1 / 1000) := by
  refine ⟨by norm_num, by norm_num, ?_⟩
  norm_num [new_amount, risk_adjusted_amount, max_amount, EQUITY_AMOUNT,
    ACCOUNT_LEVERAGE, RISK_MULTIPLIER]

/-- C6 amended: for positive balance, price and atr values the sized amount
is weakly decreasing as atr increases — the risk cap strictly shrinks, but
the minimum with the equity cap plateaus once the equity cap binds — and it
strictly decreases exactly in the regime where the risk cap at the larger
atr is below the equity cap. -/
theorem sizing_weakly_decreasing_in_atr (balance price atr₁ atr₂ : ℚ)
    (hb : 0 < balance) (_hp : 0 < price) (h0 : 0 < atr₁) (h12 : atr₁ < atr₂) :
    new_amount balance price atr₂ ≤ new_amount balance price atr₁ ∧
    (risk_adjusted_amount balance atr₂ < max_amount balance price →
      new_amount balance price atr₂ < new_amount balance price atr₁) := by
  have ha : (0 : ℚ) < balance * RISK_MULTIPLIER := by
    unfold RISK_MULTIPLIER
    positivity
  have hc : (0 : ℚ) < atr₁ * 2 := by linarith
  have hcb : atr₁ * 2 < atr₂ * 2 := by linarith
  have hR : risk_adjusted_amount balance atr₂ < risk_adjusted_amount balance atr₁ := by
    unfold risk_adjusted_amount
    exact div_lt_div_of_pos_left ha hc hcb
  constructor
  · rw [new_amount_eq_min, new_amount_eq_min]
    exact min_le_min le_rfl hR.le
  · intro hE
    rw [new_amount_eq_min, new_amount_eq_min, min_eq_right hE.le]
    exact lt_min hE hR

theorem sizing_weakly_decreasing_in_atr_witness :
    new_amount 100 1 2 ≤ new_amount 100 1 1 ∧
    new_amount 100 1 2 < new_amount 100 1 1 :=
  ⟨(sizing_weakly_decreasing_in_atr 100 1 1 2 (by norm_num) (by norm_num)
      (by norm_num) (by norm_num)).1,
   (sizing_weakly_decreasing_in_atr 100 1 1 2 (by norm_num) (by norm_num)
      (by norm_num) (by norm_num)).2
     (by norm_num [risk_adjusted_amount, max_amount, EQUITY_AMOUNT,
        ACCOUNT_LEVERAGE, RISK_MULTIPLIER])⟩

/-! ### C1: the harness never holds a long and a short simultaneously -/

/-- At most one of the two position slots is occupied. -/
def atMostOnePosition (s : BtState) : Prop :=
  s.long = none ∨ s.short = none

lemma atMostOne_btStep (s : BtState) (e : BtEvent)
    (h : atMostOnePosition s) : atMostOnePosition (btStep s e).1 := by
  cases e with
  | newBar =>
    simpa [btStep, atMostOnePosition] using h
  | orderCall side amount trigger =>
    show atMostOnePosition (simulate_market_order s side amount trigger).1
    unfold simulate_market_order
    by_cases hb : s.barSeen = false
    · rw [if_pos hb]
      exact h
    · rw [if_neg hb]
      cases hl : s.long with
      | some p =>
        left
        rfl
      | none =>
        cases hs : s.short with
        | some p =>
          right
          rfl
        | none =>
          cases trigger with
          | none => exact h
          | some t =>
            cases side with
            | buy =>
              right
              rfl
            | sell =>
              left
              rfl
  | enterOk p =>
    show atMostOnePosition (onEnterOk s p).1
    unfold onEnterOk
    split_ifs <;> exact h
  | enterCanceled p =>
    show atMostOnePosition (onEnterCanceled s p).1
    unfold onEnterCanceled
    split_ifs
    · left
      rfl
    · right
      rfl
    · exact h
  | exitOk =>
    show atMostOnePosition (onExitOk s).1
    unfold onExitOk
    cases s.wasLong <;> exact h
  | exitCanceled p =>
    exact h

lemma atMostOne_btRun (evs : List BtEvent) :
    ∀ s : BtState, atMostOnePosition s → atMostOnePosition (btRun s evs) := by
  induction evs with
  | nil =>
    intro s h
    exact h
  | cons e es ih =>
    intro s h
    unfold btRun
    cases he : (btStep s e).2.2 with
    | some err =>
      simp only [he]
      exact atMostOne_btStep s e h
    | none =>
      simp only [he]
      exact ih _ (atMostOne_btStep s e h)

/-- C1: starting from the harness's initial state (both slots `None`), no
sequence of order calls and confirmation/cancellation callbacks ever reaches
a state where the long slot and the short slot are occupied at once. -/
theorem backtest_never_long_and_short (evs : List BtEvent) :
    ¬((btRun initBtState evs).long.isSome ∧ (btRun initBtState evs).short.isSome) := by
  have h := atMostOne_btRun evs initBtState (Or.inl rfl)
  rcases h with h | h <;> simp [h]

/-! ### C8: a canceled exit is resubmitted, not an error -/

/-- C8: delivering a canceled-exit event for a position `p` leaves the
strategy state entirely unchanged, raises no error, and emits exactly one
`exitMarket` call on the very same position object `p` — i.e. the exit order
is resubmitted with identical side and amount. -/
theorem exit_cancel_resubmits_same_exit (s : BtState) (p : BtPosition) :
    btStep s (BtEvent.exitCanceled p) = (s, [Emit.exitMarket p], none) :=
  rfl

end Crypto
